import Mathlib

/-!
Shallow embedding of the Saarthi server's core logic (src/unnamed/part_000,
src/model/quiz.js): the resilient generation client (textQuery, syllabusGen,
problemSolving), the quiz JSON-salvage shaper, quiz scoring and persistence,
and the error envelopes of the AI-backed routes.

JavaScript numbers are embedded exactly: integer arithmetic as Nat/Int and
the score computation `Math.round((correctAnswers / answers.length) * 100)`
as exact rational arithmetic, with `none` standing for NaN (the 0/0 case).
External collaborators (the Gemini API, JSON.parse, the Mongo document
store) enter as parameters or as explicit state, as noted at each definition.
-/

/-- Open-brace character, written by code point to keep it out of literals. -/
def lbrace : Char := Char.ofNat 123

/-- Close-brace character. -/
def rbrace : Char := Char.ofNat 125

/-- JS `String.prototype.includes(sub)`: case-sensitive substring containment.
Models the `error.message?.includes("overloaded")` checks. -/
def strIncludes (s sub : String) : Bool :=
  (List.range (s.data.length + 1)).any fun i => sub.data.isPrefixOf (s.data.drop i)

/-- Value of a decimal digit list, most significant first (JS radix-10). -/
def digitsToNat (l : List Char) : Nat :=
  l.foldl (fun acc c => acc * 10 + (c.toNat - 48)) 0

/-- Parse the longest leading run of decimal digits; `none` when there is
no leading digit (JS parseInt yields NaN then). -/
def parseDigits (l : List Char) : Option Nat :=
  match l.takeWhile Char.isDigit with
  | [] => none
  | ds => some (digitsToNat ds)

/-- JS `parseInt(s)` (radix 10): skip leading whitespace, optional sign,
longest digit prefix; `none` models NaN. Models `parseInt(count)` and
`parseInt(timeTaken)` in the quiz submission route. -/
def parseIntJs (s : String) : Option Int :=
  match s.data.dropWhile Char.isWhitespace with
  | [] => none
  | c :: rest =>
    if c == '-' then (parseDigits rest).map fun n => -(n : Int)
    else if c == '+' then (parseDigits rest).map fun n => (n : Int)
    else (parseDigits (c :: rest)).map fun n => (n : Int)

/-- JS `Math.round`: nearest integer, ties toward positive infinity. -/
def jsMathRound (x : ℚ) : ℤ := Int.floor (x + 1 / 2)

/-- A JavaScript error value as the routes inspect it: optional numeric
`status`, optional `message` string, optional `code` string (the /form
route checks `code` for EROFS and ENOENT). -/
structure JsError where
  status : Option Nat
  message : Option String
  code : Option String := none
deriving Repr, DecidableEq

/-- The overload test duplicated across the source:
`error.status === 503 || error.message?.includes("overloaded")`. -/
def isOverloadError (e : JsError) : Bool :=
  e.status == some 503 ||
    (match e.message with
     | some m => strIncludes m "overloaded"
     | none => false)

/-- Outcome of a whole resilient generation call: the produced text or the
thrown error, together with the number of attempts made and the list of
backoff sleeps performed (milliseconds), in order. The error is optional
because the `throw lastError` after the loop would throw `undefined` when
no attempt ever ran. -/
inductive CallResult where
  | success (text : String) (attempts : Nat) (sleeps : List Nat)
  | failure (err : Option JsError) (attempts : Nat) (sleeps : List Nat)
deriving Repr, DecidableEq

/-- Number of attempts a call made. -/
def attemptsOf : CallResult → Nat
  | .success _ a _ => a
  | .failure _ a _ => a

/-- Backoff sleeps (milliseconds) a call performed, in order. -/
def sleepsOf : CallResult → List Nat
  | .success _ _ s => s
  | .failure _ _ s => s

/-- The retry loop shared verbatim by textQuery, syllabusGen and
problemSolving.  `oracle n` is the outcome of `model.generateContent` on
the n-th attempt (the external generation service).  `fuel` counts the
loop iterations still allowed and equals `maxRetries + 1 - attempt`, so
`fuel = 0` is the `attempt > maxRetries` loop exit (`throw lastError`).
On a caught error the loop records it, and when it is an overload error
and `attempt < maxRetries` it sleeps `attempt * 2000` ms and retries;
otherwise it rethrows. -/
def attemptLoop (oracle : Nat → Except JsError String) (maxRetries : Nat) :
    Nat → Nat → Option JsError → List Nat → CallResult
  | 0, attempt, lastError, sleeps => .failure lastError (attempt - 1) sleeps
  | fuel + 1, attempt, _, sleeps =>
    match oracle attempt with
    | .ok text => .success text attempt sleeps
    | .error e =>
      if isOverloadError e && decide (attempt < maxRetries) then
        attemptLoop oracle maxRetries fuel (attempt + 1) (some e)
          (sleeps ++ [attempt * 2000])
      else .failure (some e) attempt sleeps

/-- `textQuery(query)`: builds the enhanced prompt from `query` and runs the
retry loop with `maxRetries = 3` starting at attempt 1.  The oracle stands
for the external call on that prompt. -/
def textQuery (_query : String) (oracle : Nat → Except JsError String) : CallResult :=
  attemptLoop oracle 3 3 1 none []

/-- `syllabusGen(std, sub)`: same retry loop around the syllabus prompt. -/
def syllabusGen (_std _sub : String) (oracle : Nat → Except JsError String) : CallResult :=
  attemptLoop oracle 3 3 1 none []

/-- `problemSolving()`: same retry loop around the image prompt. -/
def problemSolving (oracle : Nat → Except JsError String) : CallResult :=
  attemptLoop oracle 3 3 1 none []

/-! ## Route responses -/

/-- An HTTP JSON response as the AI routes produce it: either a success
envelope with the generated payload, or `res.status(s).json` with a single
human-readable error string. -/
inductive RouteResponse where
  | okJson (payload : String)
  | errJson (status : Nat) (msg : String)
deriving Repr, DecidableEq

/-- HTTP status of a route response (express defaults success to 200). -/
def statusOf : RouteResponse → Nat
  | .okJson _ => 200
  | .errJson s _ => s

/-- `POST /ask`: run textQuery; on a caught error re-test the overload
predicate and answer 503 with the high-traffic message, otherwise 500. -/
def askRoute (question : String) (oracle : Nat → Except JsError String) : RouteResponse :=
  match textQuery question oracle with
  | .success t _ _ => .okJson t
  | .failure (some e) _ _ =>
    if isOverloadError e then
      .errJson 503 "The AI service is currently experiencing high traffic. Please try again in a few minutes."
    else
      .errJson 500 "I apologize, but I'm having trouble processing your request right now. Please try again in a moment."
  | .failure none _ _ =>
    .errJson 500 "I apologize, but I'm having trouble processing your request right now. Please try again in a moment."

/-- `POST /syllabus`: run syllabusGen; every caught error is answered with
a plain 500, with no overload classification. -/
def syllabusRoute (std subject : String) (oracle : Nat → Except JsError String) : RouteResponse :=
  match syllabusGen std subject oracle with
  | .success t _ _ => .okJson t
  | .failure _ _ _ =>
    .errJson 500 "I apologize, but I'm having trouble generating the syllabus right now. Please try again in a moment."

/-- `POST /form`: reject a missing upload with 400; otherwise make one
direct generation call (`outcome`, no retry wrapper) and classify a caught
error as 503 on overload, 500 on file-system codes, 500 otherwise. -/
def formRoute (file : Option String) (outcome : Except JsError String) : RouteResponse :=
  match file with
  | none => .errJson 400 "No image file uploaded"
  | some _ =>
    match outcome with
    | .ok t => .okJson t
    | .error e =>
      if isOverloadError e then
        .errJson 503 "The AI service is currently experiencing high traffic. Please try again in a few minutes."
      else if e.code == some "EROFS" || e.code == some "ENOENT" then
        .errJson 500 "File system error. We're using Cloudinary for uploads now."
      else
        .errJson 500 "An error occurred while processing your image. Please try again."

/-! ## Quiz generator: JSON salvage shaper -/

/-- Index of the last element satisfying `p`, via the reversed list. -/
def lastIdx? (p : Char → Bool) (s : List Char) : Option Nat :=
  (s.reverse.findIdx? p).map fun k => s.length - 1 - k

/-- The salvage span of the regex `\x7b[\s\S]*\x7d` (greedy): the substring
running from the first open brace to the last close brace of the whole
text, when the first open brace lies before the last close brace; `none`
when the regex has no match. -/
def extractBraced (s : List Char) : Option (List Char) :=
  match s.findIdx? (fun c => c == lbrace), lastIdx? (fun c => c == rbrace) s with
  | some i, some j => if i < j then some ((s.drop i).take (j - i + 1)) else none
  | _, _ => none

/-- How the quiz-generator shaper produced its value: strict parse of the
whole text, salvage parse of the brace-delimited substring, or failure
("no structured result could be recovered"). -/
inductive ShapeResult (α : Type) where
  | strict (v : α)
  | salvaged (v : α)
  | failed
deriving Repr, DecidableEq

/-- Lines 753-773 of the quiz-generator route: `JSON.parse(text)` inside
try; on parse failure match the brace regex and parse the matched span;
when the regex fails or the second parse fails, fail.  `parse` stands for
the external `JSON.parse` (some = parsed value, none = thrown SyntaxError). -/
def shapeQuizText {α : Type} (parse : String → Option α) (text : String) : ShapeResult α :=
  match parse text with
  | some v => .strict v
  | none =>
    match extractBraced text.data with
    | some sub =>
      match parse (String.mk sub) with
      | some v => .salvaged v
      | none => .failed
    | none => .failed

/-- A quiz-generator response: the parsed quiz object (plus echoed request
parameters, elided) or an error envelope. -/
inductive QuizGenResponse (α : Type) where
  | okQuiz (quiz : α)
  | errJson (status : Nat) (msg : String)
deriving Repr, DecidableEq

/-- `POST /quiz-generator`: one direct generation call (`oracle 1`, no
retry loop), then the salvage shaper.  Returns the response together with
the number of generation attempts made and the backoff sleeps performed. -/
def quizGenerator {α : Type} (parse : String → Option α)
    (oracle : Nat → Except JsError String) : QuizGenResponse α × Nat × List Nat :=
  match oracle 1 with
  | .error _ => (.errJson 500 "Failed to generate quiz. Please try again.", 1, [])
  | .ok text =>
    match shapeQuizText parse text with
    | .strict v => (.okQuiz v, 1, [])
    | .salvaged v => (.okQuiz v, 1, [])
    | .failed =>
      (.errJson 500 "Failed to generate structured quiz. Please try again with a different topic.", 1, [])

/-! ## Quiz scoring and persistence -/

/-- One submitted (answer, correct-answer) pair from the request body. -/
structure AnswerPair where
  userAnswer : String
  correctAnswer : String
deriving Repr, DecidableEq

/-- One entry of the persisted `userAnswers` array. -/
structure UserAnswerRecord where
  questionNumber : Nat
  userAnswer : String
  correctAnswer : String
  isCorrect : Bool
deriving Repr, DecidableEq

/-- The scoring loop of `POST /submit-quiz`, with `i` the 0-based loop
index: compare each pair with `===`, count the matches, and push the
annotated record with 1-based `questionNumber`. -/
def gradeFrom : Nat → List AnswerPair → Nat × List UserAnswerRecord
  | _, [] => (0, [])
  | i, a :: rest =>
    let isCorrect := a.userAnswer == a.correctAnswer
    let tail := gradeFrom (i + 1) rest
    ((if isCorrect then 1 else 0) + tail.1,
      ⟨i + 1, a.userAnswer, a.correctAnswer, isCorrect⟩ :: tail.2)

/-- Scoring of the full answer list, starting at index 0. -/
def gradeAnswers (answers : List AnswerPair) : Nat × List UserAnswerRecord :=
  gradeFrom 0 answers

/-- `Math.round((correctAnswers / answers.length) * 100)` over exact
rationals; `none` models the NaN of the empty case 0/0. -/
def scoreOf (c n : Nat) : Option ℤ :=
  if n = 0 then none else some (jsMathRound ((c : ℚ) / (n : ℚ) * 100))

/-- Round-half-up of `num / den` over naturals, the spec's reading of the
score formula `round(100 * C / N)`. -/
def roundHalfUp (num den : Nat) : Nat := (2 * num + den) / (2 * den)

/-- The request body of `POST /submit-quiz` (all fields as sent: `count`
and `timeTaken` arrive as strings and go through parseInt). -/
structure QuizSubmission where
  topic : String
  difficulty : String
  questionType : String
  count : String
  answers : List AnswerPair
  timeTaken : String
deriving Repr, DecidableEq

/-- A persisted QuizResult document (src/model/quiz.js), with `id` for the
fresh `_id` the store assigns at insert and `completedAt` its timestamp. -/
structure QuizResultRecord where
  id : Nat
  user : Nat
  topic : String
  difficulty : String
  questionType : String
  totalQuestions : Int
  correctAnswers : Nat
  score : Int
  userAnswers : List UserAnswerRecord
  timeTaken : Int
  completedAt : Nat
deriving Repr, DecidableEq

/-- The success envelope of `POST /submit-quiz` (its `totalQuestions` is
`answers.length`, unlike the persisted record's). -/
structure SubmitResponse where
  score : Int
  correctAnswers : Nat
  totalQuestions : Nat
  userAnswers : List UserAnswerRecord
deriving Repr, DecidableEq

/-- Outcome of `POST /submit-quiz`: the saved record plus the success
envelope, or the catch-all 500. -/
inductive SubmitOutcome where
  | ok (saved : QuizResultRecord) (response : SubmitResponse)
  | error500 (msg : String)
deriving Repr, DecidableEq

/-- `POST /submit-quiz` for user `userId`: score the answers, then build
and save the record.  The document store (mongoose Number cast) rejects a
NaN `score`, `totalQuestions` or `timeTaken`, so any `none` among them
lands in the catch block's 500; on success the saved record carries the
fresh `id` and the insert timestamp `now`. -/
def submitQuiz (userId : Nat) (sub : QuizSubmission) (freshId now : Nat) : SubmitOutcome :=
  let graded := gradeAnswers sub.answers
  match scoreOf graded.1 sub.answers.length, parseIntJs sub.count, parseIntJs sub.timeTaken with
  | some score, some total, some tt =>
    .ok ⟨freshId, userId, sub.topic, sub.difficulty, sub.questionType, total,
          graded.1, score, graded.2, tt, now⟩
      ⟨score, graded.1, sub.answers.length, graded.2⟩
  | _, _, _ => .error500 "Failed to submit quiz. Please try again."

/-- The store-level effect of one submission: `quizResult.save()` inserts
one new document (create-only, `_id := store.length` kept fresh by the
append discipline); a failed submission leaves the store unchanged. -/
def submitQuizToStore (store : List QuizResultRecord) (userId : Nat)
    (sub : QuizSubmission) (now : Nat) : List QuizResultRecord × SubmitOutcome :=
  match submitQuiz userId sub store.length now with
  | .ok rec resp => (store ++ [rec], .ok rec resp)
  | .error500 m => (store, .error500 m)

/-- "`b` is at least as new as `a` is": the descending completedAt order
of `GET /quiz-history`'s `.sort(\x7b completedAt: -1 \x7d)`. -/
def newerEq (a b : QuizResultRecord) : Prop := b.completedAt ≤ a.completedAt

instance : DecidableRel newerEq := fun a b => Nat.decLe b.completedAt a.completedAt

instance : IsTotal QuizResultRecord newerEq :=
  ⟨fun a b => (Nat.le_total b.completedAt a.completedAt).imp id id⟩

instance : IsTrans QuizResultRecord newerEq :=
  ⟨fun _ _ _ h1 h2 => Nat.le_trans h2 h1⟩

/-- `GET /quiz-history`: `QuizResult.find(\x7b user \x7d).sort(\x7b completedAt: -1 \x7d).limit(10)`
— the requesting user's records, newest first, at most 10. -/
def quizHistory (store : List QuizResultRecord) (userId : Nat) : List QuizResultRecord :=
  (List.insertionSort newerEq (store.filter fun r => r.user == userId)).take 10

/-! ## Concrete sample values used by the witnesses -/

/-- A 503 overload error as the Gemini SDK raises it. -/
def overloadErr : JsError := ⟨some 503, some "The model is overloaded.", none⟩

/-- A non-retryable error (bad request). -/
def otherErr : JsError := ⟨some 400, some "invalid argument", none⟩

/-- An oracle whose every attempt fails with the overload error. -/
def overloadOracle : Nat → Except JsError String := fun _ => .error overloadErr

/-- An oracle whose every attempt fails with a non-retryable error. -/
def failOracle : Nat → Except JsError String := fun _ => .error otherErr

/-- An oracle that succeeds at once. -/
def okOracle : Nat → Except JsError String := fun _ => .ok "generated text"

/-- An oracle that fails with the overload error on attempt 1 and then
succeeds, exercising a mid-loop success. -/
def lateOracle : Nat → Except JsError String :=
  fun n => if n = 1 then .error overloadErr else .ok "late text"

/-- Three answer pairs with one exact match (the spec's N=3, C=1 case). -/
def demoAnswers : List AnswerPair := [⟨"A", "B"⟩, ⟨"C", "C"⟩, ⟨"D", "E"⟩]

/-- A well-formed submission over demoAnswers with a matching count. -/
def demoSubmission : QuizSubmission :=
  ⟨"Algebra", "easy", "mcq", "3", demoAnswers, "42"⟩

/-- A submission with an empty answers array. -/
def emptySubmission : QuizSubmission :=
  ⟨"Algebra", "easy", "mcq", "0", [], "5"⟩

/-- The exact JSON text the sample quiz reply wraps in prose. -/
def demoJson : String :=
  String.mk [lbrace] ++ "\"questions\":[]" ++ String.mk [rbrace]

/-- A raw generation reply wrapping demoJson in prose. -/
def demoQuizText : String := "Here is your quiz: " ++ demoJson ++ " Thanks!"

/-- A stand-in for JSON.parse that accepts exactly demoJson. -/
def demoParse : String → Option Unit := fun s => if s = demoJson then some () else none

/-! ## Helper lemmas -/

/-- The exact-rational score computation agrees with round-half-up of
`100 * c / n` in its natural-division closed form. -/
theorem scoreOf_eq (c n : Nat) (h : n ≠ 0) :
    scoreOf c n = some ((roundHalfUp (100 * c) n : ℕ) : ℤ) := by
  have hn : (n : ℚ) ≠ 0 := Nat.cast_ne_zero.mpr h
  have hq : (c : ℚ) / (n : ℚ) * 100 + 1 / 2
      = ((2 * (100 * c) + n : ℕ) : ℚ) / ((2 * n : ℕ) : ℚ) := by
    push_cast
    field_simp
    ring
  simp only [scoreOf, jsMathRound, if_neg h, hq, Rat.floor_natCast_div_natCast,
    roundHalfUp]
  norm_cast

/-- strIncludes is exactly substring containment. -/
theorem strIncludes_iff (s sub : String) :
    strIncludes s sub = true ↔ ∃ pre post, s.data = pre ++ sub.data ++ post := by
  unfold strIncludes
  rw [List.any_eq_true]
  constructor
  · rintro ⟨i, _, hp⟩
    obtain ⟨t, ht⟩ := List.isPrefixOf_iff_prefix.mp hp
    refine ⟨s.data.take i, t, ?_⟩
    rw [List.append_assoc, ht, List.take_append_drop]
  · rintro ⟨pre, post, hs⟩
    refine ⟨pre.length, ?_, ?_⟩
    · rw [List.mem_range]
      have hlen := congrArg List.length hs
      rw [List.length_append, List.length_append] at hlen
      omega
    · rw [hs, List.append_assoc, List.drop_left]
      exact List.isPrefixOf_iff_prefix.mpr (List.prefix_append _ _)

/-- When findIdx? (started at accumulator `i`) answers `j`, the list
splits at a first hit: a `p`-free prefix of length `j - i`, then an
element satisfying `p`. -/
theorem findIdx?_decomp {α : Type} {p : α → Bool} :
    ∀ {s : List α} {i j : Nat}, List.findIdx? p s i = some j →
      ∃ pre c post, s = pre ++ c :: post ∧ i + pre.length = j ∧ p c = true ∧
        ∀ x ∈ pre, p x = false
  | [], i, j, h => by simp [List.findIdx?] at h
  | a :: l, i, j, h => by
    rw [List.findIdx?_cons] at h
    by_cases hp : p a
    · rw [if_pos hp] at h
      injection h with h
      exact ⟨[], a, l, rfl, by simpa using h, hp, by simp⟩
    · rw [if_neg hp] at h
      obtain ⟨pre, c, post, hs, hlen, hc, hfree⟩ := findIdx?_decomp h
      refine ⟨a :: pre, c, post, by rw [hs]; rfl, ?_, hc, ?_⟩
      · simp only [List.length_cons]
        omega
      · intro x hx
        rcases List.mem_cons.mp hx with rfl | hx
        · simpa using hp
        · exact hfree x hx

/-- When lastIdx? answers `j`, the list splits at a last hit: position `j`
satisfies `p` and everything after it is `p`-free. -/
theorem lastIdx?_decomp {p : Char → Bool} {s : List Char} {j : Nat}
    (h : lastIdx? p s = some j) :
    ∃ front c post, s = front ++ c :: post ∧ front.length = j ∧ p c = true ∧
      ∀ x ∈ post, p x = false := by
  unfold lastIdx? at h
  obtain ⟨k, hk, rfl⟩ := Option.map_eq_some'.mp h
  obtain ⟨pre, c, post, hs, hlen, hc, hfree⟩ := findIdx?_decomp hk
  simp only [Nat.zero_add] at hlen
  refine ⟨post.reverse, c, pre.reverse, ?_, ?_, hc, ?_⟩
  · have h2 := congrArg List.reverse hs
    rw [List.reverse_reverse] at h2
    rw [h2]
    simp
  · have hlength := congrArg List.length hs
    rw [List.length_reverse, List.length_append, List.length_cons] at hlength
    rw [List.length_reverse]
    omega
  · intro x hx
    exact hfree x (List.mem_reverse.mp hx)

/-- What the salvage span looks like when the regex matches: the text
splits as `pre ++ sub ++ post` where `sub` starts with the first open
brace (`pre` carries none), ends with the last close brace (`post`
carries none after it), so the span is greedy across the whole string. -/
theorem extractBraced_decomp {s sub : List Char} (h : extractBraced s = some sub) :
    ∃ pre post, s = pre ++ sub ++ post ∧ sub.head? = some lbrace ∧
      sub.getLast? = some rbrace ∧ (∀ x ∈ pre, (x == lbrace) = false) ∧
      ∀ x ∈ post, (x == rbrace) = false := by
  unfold extractBraced at h
  cases hf : s.findIdx? (fun c => c == lbrace) with
  | none => rw [hf] at h; simp at h
  | some i =>
    cases hl : lastIdx? (fun c => c == rbrace) s with
    | none => rw [hf, hl] at h; simp at h
    | some j =>
      rw [hf, hl] at h
      dsimp only at h
      by_cases hij : i < j
      · rw [if_pos hij] at h
        injection h with h
        obtain ⟨pre, c1, rest, hs1, hlen1, hc1, hfree1⟩ := findIdx?_decomp hf
        obtain ⟨front, c2, post, hs2, hlen2, hc2, hfree2⟩ := lastIdx?_decomp hl
        have hc1e : c1 = lbrace := by simpa using hc1
        have hc2e : c2 = rbrace := by simpa using hc2
        subst hc1e hc2e
        have hi : pre.length = i := by omega
        have hdropA : s.drop i = lbrace :: rest := by
          rw [hs1, ← hi]
          exact List.drop_left _ _
        have hdropB : s.drop i = front.drop i ++ (rbrace :: post) := by
          rw [hs2, List.drop_append_eq_append_drop]
          have h0 : i - front.length = 0 := by omega
          rw [h0, List.drop_zero]
        have hdlen : (front.drop i).length = j - i := by
          rw [List.length_drop]
          omega
        have hsub : sub = front.drop i ++ [rbrace] := by
          rw [← h, hdropB, List.take_append_eq_append_take, hdlen,
            List.take_of_length_le (by omega : (front.drop i).length ≤ j - i + 1)]
          have h1 : j - i + 1 - (j - i) = 1 := by omega
          rw [h1]
          simp
        have hfront : front = pre ++ front.drop i := by
          have hpre : s.take i = pre := by
            rw [hs1, ← hi]
            exact List.take_left _ _
          have hfr : s.take j = front := by
            rw [hs2, ← hlen2]
            exact List.take_left _ _
          have hft : front.take i = pre := by
            rw [← hfr, List.take_take, Nat.min_eq_left (Nat.le_of_lt hij), hpre]
          conv_lhs => rw [← List.take_append_drop i front]
          rw [hft]
        refine ⟨pre, post, ?_, ?_, ?_, hfree1, hfree2⟩
        · calc s = front ++ rbrace :: post := hs2
            _ = (pre ++ front.drop i) ++ rbrace :: post := by rw [← hfront]
            _ = pre ++ (front.drop i ++ [rbrace]) ++ post := by simp
            _ = pre ++ sub ++ post := by rw [← hsub]
        · have hne : front.drop i ≠ [] := by
            intro hnil
            rw [hnil] at hdlen
            simp at hdlen
            omega
          cases hd : front.drop i with
          | nil => exact absurd hd hne
          | cons a t =>
            have : a = lbrace := by
              rw [hd] at hdropB
              rw [hdropA] at hdropB
              exact (List.cons.injEq _ _ _ _).mp hdropB.symm |>.1
            rw [hsub, hd, this]
            simp
        · rw [hsub]
          exact List.getLast?_concat _
      · rw [if_neg hij] at h
        exact absurd h (by simp)

/-- A submission with at least one pair and parseable count and timeTaken
saves exactly one record carrying the graded results. -/
theorem submitQuiz_ok (u : Nat) (sub : QuizSubmission) (fid now : Nat)
    (hne : sub.answers ≠ []) (k1 k2 : Int) (hc : parseIntJs sub.count = some k1)
    (ht : parseIntJs sub.timeTaken = some k2) :
    submitQuiz u sub fid now =
      .ok ⟨fid, u, sub.topic, sub.difficulty, sub.questionType, k1,
            (gradeAnswers sub.answers).1,
            ((roundHalfUp (100 * (gradeAnswers sub.answers).1) sub.answers.length : ℕ) : ℤ),
            (gradeAnswers sub.answers).2, k2, now⟩
        ⟨((roundHalfUp (100 * (gradeAnswers sub.answers).1) sub.answers.length : ℕ) : ℤ),
          (gradeAnswers sub.answers).1, sub.answers.length, (gradeAnswers sub.answers).2⟩ := by
  have hn : sub.answers.length ≠ 0 := by
    intro h0
    exact hne (List.length_eq_zero.mp h0)
  rw [submitQuiz, scoreOf_eq _ _ hn, hc, ht]

/-- In a list sorted newest-first, an element with at most `k` elements at
least as new as itself (itself included) survives `take k`. -/
theorem mem_take_of_countP_le {x : QuizResultRecord} :
    ∀ (l : List QuizResultRecord) (k : Nat), l.Pairwise newerEq → x ∈ l →
      l.countP (fun y => decide (x.completedAt ≤ y.completedAt)) ≤ k → x ∈ l.take k
  | [], _, _, hx, _ => absurd hx (List.not_mem_nil x)
  | y :: ys, k, hpair, hx, hcount => by
    rw [List.countP_cons] at hcount
    rcases List.mem_cons.mp hx with rfl | hx0
    · have hone : (if decide (x.completedAt ≤ x.completedAt) = true then 1 else 0) = 1 := by
        simp
      rw [hone] at hcount
      cases k with
      | zero => omega
      | succ k =>
        rw [List.take_succ_cons]
        exact List.mem_cons_self x _
    · have hyx : newerEq y x := (List.pairwise_cons.mp hpair).1 x hx0
      have hone : (if decide (x.completedAt ≤ y.completedAt) = true then 1 else 0) = 1 := by
        simp [newerEq] at hyx
        simp [hyx]
      rw [hone] at hcount
      cases k with
      | zero => omega
      | succ k =>
        have hih := mem_take_of_countP_le ys k (List.pairwise_cons.mp hpair).2 hx0
          (by omega)
        rw [List.take_succ_cons]
        exact List.mem_cons_of_mem y hih

/-- Sleeps performed by one run of the shared retry loop: exactly one
backoff per retry taken, the n-th backoff being n * 2000 ms. -/
theorem attemptLoop_sleeps (oracle : Nat → Except JsError String) :
    sleepsOf (attemptLoop oracle 3 3 1 none [])
      = (List.range (attemptsOf (attemptLoop oracle 3 3 1 none []) - 1)).map
          (fun n => (n + 1) * 2000) := by
  rcases h1 : oracle 1 with e1 | t1
  · cases hr1 : isOverloadError e1 with
    | false => simp [attemptLoop, h1, hr1, sleepsOf, attemptsOf]
    | true =>
      rcases h2 : oracle 2 with e2 | t2
      · cases hr2 : isOverloadError e2 with
        | false =>
          simp [attemptLoop, h1, h2, hr1, hr2, sleepsOf, attemptsOf, List.range_succ]
        | true =>
          rcases h3 : oracle 3 with e3 | t3
          · simp [attemptLoop, h1, h2, h3, hr1, hr2, sleepsOf, attemptsOf, List.range_succ]
          · simp [attemptLoop, h1, h2, h3, hr1, hr2, sleepsOf, attemptsOf, List.range_succ]
      · simp [attemptLoop, h1, h2, hr1, sleepsOf, attemptsOf, List.range_succ]
  · simp [attemptLoop, h1, sleepsOf, attemptsOf]

/-- C1: for every generation call (textQuery, syllabusGen, problemSolving)
whose underlying attempt fails with a retryable (overload) error on every
attempt, the client makes exactly 3 attempts and then fails by propagating
the last observed error; a success on any attempt n (after retryable
failures on the attempts before it) returns the generated text at once —
exactly n attempts, with only the backoffs already slept, none after. -/
theorem retry_exhaustion_bound (query std subj : String)
    (oracle : Nat → Except JsError String) :
    ((∀ n, 1 ≤ n → n ≤ 3 → ∃ e, oracle n = .error e ∧ isOverloadError e = true) →
      ∃ e3, oracle 3 = .error e3 ∧
        textQuery query oracle = .failure (some e3) 3 [2000, 4000] ∧
        syllabusGen std subj oracle = .failure (some e3) 3 [2000, 4000] ∧
        problemSolving oracle = .failure (some e3) 3 [2000, 4000])
    ∧ ∀ n t, 1 ≤ n → n ≤ 3 →
        (∀ m, 1 ≤ m → m < n → ∃ e, oracle m = .error e ∧ isOverloadError e = true) →
        oracle n = .ok t →
        textQuery query oracle
            = .success t n ((List.range (n - 1)).map fun i => (i + 1) * 2000) ∧
        syllabusGen std subj oracle
            = .success t n ((List.range (n - 1)).map fun i => (i + 1) * 2000) ∧
        problemSolving oracle
            = .success t n ((List.range (n - 1)).map fun i => (i + 1) * 2000) := by
  constructor
  · intro h
    obtain ⟨e1, h1, r1⟩ := h 1 (by omega) (by omega)
    obtain ⟨e2, h2, r2⟩ := h 2 (by omega) (by omega)
    obtain ⟨e3, h3, r3⟩ := h 3 (by omega) (by omega)
    refine ⟨e3, h3, ?_, ?_, ?_⟩ <;>
      simp [textQuery, syllabusGen, problemSolving, attemptLoop, h1, h2, h3, r1, r2, r3]
  · intro n t hn1 hn3 hprev hok
    interval_cases n
    · refine ⟨?_, ?_, ?_⟩ <;>
        simp [textQuery, syllabusGen, problemSolving, attemptLoop, hok]
    · obtain ⟨e1, h1, r1⟩ := hprev 1 (by omega) (by omega)
      refine ⟨?_, ?_, ?_⟩ <;>
        simp [textQuery, syllabusGen, problemSolving, attemptLoop, h1, r1, hok,
          List.range_succ]
    · obtain ⟨e1, h1, r1⟩ := hprev 1 (by omega) (by omega)
      obtain ⟨e2, h2, r2⟩ := hprev 2 (by omega) (by omega)
      refine ⟨?_, ?_, ?_⟩ <;>
        simp [textQuery, syllabusGen, problemSolving, attemptLoop, h1, h2, r1, r2, hok,
          List.range_succ]

/-- Witness for C1: an always-overloaded oracle yields 3 attempts,
backoffs 2 s and 4 s, and the last error; an immediately-successful
oracle yields the text after 1 attempt with no backoff; an oracle that
recovers on attempt 2 yields the text after exactly 2 attempts with only
the single 2 s backoff already slept. -/
theorem retry_exhaustion_bound_wit :
    textQuery "q" overloadOracle = .failure (some overloadErr) 3 [2000, 4000]
    ∧ textQuery "q" okOracle = .success "generated text" 1 []
    ∧ textQuery "q" lateOracle = .success "late text" 2 [2000] := by
  refine ⟨?_, ?_, ?_⟩
  · obtain ⟨e3, he3, ht, _, _⟩ :=
      (retry_exhaustion_bound "q" "s" "m" overloadOracle).1
        (fun n _ _ => ⟨overloadErr, rfl, by decide⟩)
    rw [show overloadOracle 3 = Except.error overloadErr from rfl] at he3
    injection he3 with he3
    rw [← he3] at ht
    exact ht
  · have h := ((retry_exhaustion_bound "q" "s" "m" okOracle).2 1 "generated text"
      (by omega) (by omega) (fun m hm1 hm2 => absurd hm1 (by omega)) rfl).1
    simpa using h
  · have h := ((retry_exhaustion_bound "q" "s" "m" lateOracle).2 2 "late text"
      (by omega) (by omega)
      (fun m hm1 hm2 => by
        have hm : m = 1 := by omega
        subst hm
        exact ⟨overloadErr, rfl, by decide⟩)
      rfl).1
    simpa using h

/-- C2: a failure is retryable iff it carries status 503 or its message
contains the substring "overloaded"; a non-retryable failure on attempt 1
terminates the call with exactly 1 attempt and no backoff sleep. -/
theorem overload_retry_predicate (e : JsError) (query std subj : String)
    (oracle : Nat → Except JsError String) :
    (isOverloadError e = true ↔
      (e.status = some 503 ∨ ∃ m pre post, e.message = some m ∧
        m.data = pre ++ "overloaded".data ++ post))
    ∧ (oracle 1 = .error e → isOverloadError e = false →
        textQuery query oracle = .failure (some e) 1 [] ∧
        syllabusGen std subj oracle = .failure (some e) 1 [] ∧
        problemSolving oracle = .failure (some e) 1 []) := by
  constructor
  · rcases e with ⟨st, msg, cd⟩
    cases msg with
    | none => simp [isOverloadError]
    | some m => simp [isOverloadError, strIncludes_iff]
  · intro h1 hno
    refine ⟨?_, ?_, ?_⟩ <;>
      simp [textQuery, syllabusGen, problemSolving, attemptLoop, h1, hno]

/-- Witness for C2: the 503 error is retryable, the 400 error is not, and
an immediate non-retryable failure stops after 1 attempt with no sleep. -/
theorem overload_retry_predicate_wit :
    isOverloadError overloadErr = true
    ∧ isOverloadError otherErr = false
    ∧ textQuery "q" failOracle = .failure (some otherErr) 1 [] := by
  refine ⟨?_, by decide, ?_⟩
  · exact (overload_retry_predicate overloadErr "q" "s" "m" failOracle).1.mpr (Or.inl rfl)
  · exact ((overload_retry_predicate otherErr "q" "s" "m" failOracle).2 rfl (by decide)).1

/-- C3: the backoff slept before retry n+1 is n * 2000 ms (2 s then 4 s,
monotone in the attempt index), and no backoff is slept after the final
attempt or after a success: each call performs exactly `attempts - 1`
backoffs, the n-th being (n+1) * 2000 ms. -/
theorem retry_backoff_schedule (query std subj : String)
    (oracle : Nat → Except JsError String) :
    sleepsOf (textQuery query oracle)
        = (List.range (attemptsOf (textQuery query oracle) - 1)).map
            (fun n => (n + 1) * 2000)
    ∧ sleepsOf (syllabusGen std subj oracle)
        = (List.range (attemptsOf (syllabusGen std subj oracle) - 1)).map
            (fun n => (n + 1) * 2000)
    ∧ sleepsOf (problemSolving oracle)
        = (List.range (attemptsOf (problemSolving oracle) - 1)).map
            (fun n => (n + 1) * 2000) :=
  ⟨attemptLoop_sleeps oracle, attemptLoop_sleeps oracle, attemptLoop_sleeps oracle⟩

/-- C6: an empty answer sequence is rejected with the 500 envelope (the
NaN score fails the store's number cast) and persists nothing. -/
theorem empty_quiz_submission_rejected (u : Nat) (sub : QuizSubmission) (fid now : Nat)
    (h : sub.answers = []) :
    submitQuiz u sub fid now = .error500 "Failed to submit quiz. Please try again."
    ∧ ∀ store : List QuizResultRecord,
        submitQuizToStore store u sub now
          = (store, .error500 "Failed to submit quiz. Please try again.") := by
  have hall : ∀ fid2 now2, submitQuiz u sub fid2 now2
      = .error500 "Failed to submit quiz. Please try again." := by
    intro fid2 now2
    simp only [submitQuiz, h]
    rw [show scoreOf (gradeAnswers []).1 [].length = none from rfl]
  refine ⟨hall fid now, fun store => ?_⟩
  simp only [submitQuizToStore, hall]

/-- Witness for C6 at the concrete empty submission. -/
theorem empty_quiz_submission_rejected_wit :
    submitQuiz 0 emptySubmission 0 0 = .error500 "Failed to submit quiz. Please try again."
    ∧ submitQuizToStore [] 0 emptySubmission 0
        = ([], .error500 "Failed to submit quiz. Please try again.") := by
  obtain ⟨h1, h2⟩ := empty_quiz_submission_rejected 0 emptySubmission 0 0 rfl
  exact ⟨h1, h2 []⟩

/-- C5: the shaper returns a strict parse unchanged without salvage; on
strict-parse failure it parses the span from the first open brace to the
last close brace (greedy across the whole text); when no such span exists
or it fails to parse, the shaper fails instead of returning a value. -/
theorem quiz_json_salvage {α : Type} (parse : String → Option α) (text : String) :
    (∀ v, parse text = some v → shapeQuizText parse text = .strict v)
    ∧ (parse text = none → extractBraced text.data = none →
        shapeQuizText parse text = .failed)
    ∧ ∀ sub, parse text = none → extractBraced text.data = some sub →
        ((∀ v, parse (String.mk sub) = some v → shapeQuizText parse text = .salvaged v)
          ∧ (parse (String.mk sub) = none → shapeQuizText parse text = .failed)
          ∧ ∃ pre post, text.data = pre ++ sub ++ post ∧ sub.head? = some lbrace
              ∧ sub.getLast? = some rbrace ∧ (∀ x ∈ pre, (x == lbrace) = false)
              ∧ ∀ x ∈ post, (x == rbrace) = false) := by
  refine ⟨?_, ?_, ?_⟩
  · intro v hv
    simp [shapeQuizText, hv]
  · intro hn he
    simp [shapeQuizText, hn, he]
  · intro sub hn he
    refine ⟨?_, ?_, extractBraced_decomp he⟩
    · intro v hv
      simp [shapeQuizText, hn, he, hv]
    · intro hv
      simp [shapeQuizText, hn, he, hv]

/-- Witness for C5: prose-wrapped JSON is salvaged, brace-free text fails,
and strictly valid JSON is returned as a strict parse. -/
theorem quiz_json_salvage_wit :
    shapeQuizText demoParse demoQuizText = .salvaged ()
    ∧ shapeQuizText demoParse "no json here" = .failed
    ∧ shapeQuizText demoParse demoJson = .strict () := by
  refine ⟨?_, ?_, ?_⟩
  · exact ((quiz_json_salvage demoParse demoQuizText).2.2 demoJson.data
      (by decide) (by decide)).1 () (by decide)
  · exact (quiz_json_salvage demoParse "no json here").2.1 (by decide) (by decide)
  · exact (quiz_json_salvage demoParse demoJson).1 () (by decide)

/-- C10: the quiz-generator route makes exactly one generation attempt:
any failure of that attempt (overload included) yields the 500 envelope
with no retries, no backoff and no 503 classification, and the route's
outcome depends only on the first attempt. -/
theorem quiz_generator_single_attempt {α : Type} (parse : String → Option α)
    (oracle : Nat → Except JsError String) :
    (∀ e, oracle 1 = .error e →
        quizGenerator parse oracle
          = (.errJson 500 "Failed to generate quiz. Please try again.", 1, []))
    ∧ (∀ oracle2 : Nat → Except JsError String, oracle2 1 = oracle 1 →
        quizGenerator parse oracle2 = quizGenerator parse oracle)
    ∧ (quizGenerator parse oracle).2 = (1, []) := by
  refine ⟨?_, ?_, ?_⟩
  · intro e he
    simp [quizGenerator, he]
  · intro o2 ho
    simp [quizGenerator, ho]
  · rcases h : oracle 1 with e | t
    · simp [quizGenerator, h]
    · rcases hs : shapeQuizText parse t with v | v | _ <;> simp [quizGenerator, h, hs]

/-- Witness for C10: an overloaded single attempt still produces the plain
500 envelope after exactly one attempt and no sleeps. -/
theorem quiz_generator_single_attempt_wit :
    isOverloadError overloadErr = true
    ∧ quizGenerator demoParse overloadOracle
        = (.errJson 500 "Failed to generate quiz. Please try again.", 1, []) :=
  ⟨by decide, (quiz_generator_single_attempt demoParse overloadOracle).1 overloadErr rfl⟩

/-- Counterexample to C7 as stated: an overload failure that exhausted the
syllabusGen retries is answered by /syllabus with status 500, not 503. -/
theorem syllabus_route_overload_cex :
    isOverloadError overloadErr = true
    ∧ syllabusRoute "10" "Math" overloadOracle
        = .errJson 500 "I apologize, but I'm having trouble generating the syllabus right now. Please try again in a moment."
    ∧ statusOf (syllabusRoute "10" "Math" overloadOracle) ≠ 503 := by
  decide

/-- C7 (amended): failure responses are JSON envelopes with one
human-readable error string; /ask answers 503 on a classified overload and
500 otherwise, /form answers 400 on a missing upload and 503/500 by the
same classification — while /syllabus answers 500 for every failure,
including an overload that exhausted retries. -/
theorem route_error_envelopes (q std subj f : String)
    (oracle : Nat → Except JsError String) (e : JsError)
    (outcome : Except JsError String) :
    (∀ a s, textQuery q oracle = .failure (some e) a s →
      askRoute q oracle =
        if isOverloadError e then
          .errJson 503 "The AI service is currently experiencing high traffic. Please try again in a few minutes."
        else
          .errJson 500 "I apologize, but I'm having trouble processing your request right now. Please try again in a moment.")
    ∧ (∀ le a s, syllabusGen std subj oracle = .failure le a s →
        syllabusRoute std subj oracle
          = .errJson 500 "I apologize, but I'm having trouble generating the syllabus right now. Please try again in a moment.")
    ∧ formRoute none outcome = .errJson 400 "No image file uploaded"
    ∧ statusOf (formRoute (some f) (.error e)) = (if isOverloadError e then 503 else 500) := by
  refine ⟨?_, ?_, rfl, ?_⟩
  · intro a s h
    cases ho : isOverloadError e <;> simp [askRoute, h, ho]
  · intro le a s h
    simp [syllabusRoute, h]
  · cases ho : isOverloadError e
    · cases hc : (e.code == some "EROFS" || e.code == some "ENOENT") <;>
        simp [formRoute, statusOf, ho, hc]
    · simp [formRoute, statusOf, ho]

/-- Witness for C7 (amended) at concrete failures: /ask classifies the
exhausted overload as 503, /form rejects a missing upload with 400 and
answers 500 on a non-overload failure. -/
theorem route_error_envelopes_wit :
    askRoute "q" overloadOracle
      = .errJson 503 "The AI service is currently experiencing high traffic. Please try again in a few minutes."
    ∧ formRoute none (.ok "t") = .errJson 400 "No image file uploaded"
    ∧ statusOf (formRoute (some "img") (.error otherErr)) = 500 := by
  obtain ⟨h1, _, h3, _⟩ :=
    route_error_envelopes "q" "10" "Math" "img" overloadOracle overloadErr (.ok "t")
  obtain ⟨_, _, _, h4⟩ :=
    route_error_envelopes "q" "10" "Math" "img" overloadOracle otherErr (.ok "t")
  refine ⟨?_, h3, ?_⟩
  · have ha := h1 3 [2000, 4000] (by decide)
    rw [show isOverloadError overloadErr = true from by decide] at ha
    simpa using ha
  · rw [show isOverloadError otherErr = false from by decide] at h4
    simpa using h4

/-- Sorting the user's records newest-first yields a Pairwise-sorted list
(Sorted unfolded to Pairwise for use with mem_take_of_countP_le). -/
theorem pairwise_insertionSort_newerEq (l : List QuizResultRecord) :
    List.Pairwise newerEq (List.insertionSort newerEq l) :=
  List.sorted_insertionSort newerEq l

/-- C9: quiz attempt records are create-only — two identical submissions
append two distinct records (fresh ids, no update, no dedup) — and the
history listing returns only the requesting user's records, newest first,
at most 10, so both freshly added duplicates appear in it. -/
theorem quiz_history_append_only (store : List QuizResultRecord) (u : Nat)
    (sub : QuizSubmission) (now1 now2 : Nat)
    (hne : sub.answers ≠ [])
    (hcnt : ∃ k, parseIntJs sub.count = some k)
    (htt : ∃ k, parseIntJs sub.timeTaken = some k)
    (hold : ∀ r ∈ store, r.completedAt < now1)
    (h12 : now1 < now2) :
    ∃ rec1 resp1 rec2 resp2,
      submitQuizToStore store u sub now1 = (store ++ [rec1], .ok rec1 resp1)
      ∧ submitQuizToStore (store ++ [rec1]) u sub now2
          = (store ++ [rec1] ++ [rec2], .ok rec2 resp2)
      ∧ rec1.id ≠ rec2.id
      ∧ rec1.user = u ∧ rec2.user = u
      ∧ rec1.topic = rec2.topic ∧ rec1.totalQuestions = rec2.totalQuestions
      ∧ rec1.correctAnswers = rec2.correctAnswers ∧ rec1.score = rec2.score
      ∧ rec1.userAnswers = rec2.userAnswers
      ∧ (∀ (s2 : List QuizResultRecord) (u2 : Nat),
          (∀ r ∈ quizHistory s2 u2, r.user = u2)
          ∧ (quizHistory s2 u2).Pairwise newerEq
          ∧ (quizHistory s2 u2).length ≤ 10)
      ∧ rec1 ∈ quizHistory (store ++ [rec1] ++ [rec2]) u
      ∧ rec2 ∈ quizHistory (store ++ [rec1] ++ [rec2]) u := by
  obtain ⟨k1, hc⟩ := hcnt
  obtain ⟨k2, ht2⟩ := htt
  have h1 := submitQuiz_ok u sub store.length now1 hne k1 k2 hc ht2
  have h2 := submitQuiz_ok u sub (store.length + 1) now2 hne k1 k2 hc ht2
  refine ⟨⟨store.length, u, sub.topic, sub.difficulty, sub.questionType, k1,
      (gradeAnswers sub.answers).1,
      ((roundHalfUp (100 * (gradeAnswers sub.answers).1) sub.answers.length : ℕ) : ℤ),
      (gradeAnswers sub.answers).2, k2, now1⟩,
    ⟨((roundHalfUp (100 * (gradeAnswers sub.answers).1) sub.answers.length : ℕ) : ℤ),
      (gradeAnswers sub.answers).1, sub.answers.length, (gradeAnswers sub.answers).2⟩,
    ⟨store.length + 1, u, sub.topic, sub.difficulty, sub.questionType, k1,
      (gradeAnswers sub.answers).1,
      ((roundHalfUp (100 * (gradeAnswers sub.answers).1) sub.answers.length : ℕ) : ℤ),
      (gradeAnswers sub.answers).2, k2, now2⟩,
    ⟨((roundHalfUp (100 * (gradeAnswers sub.answers).1) sub.answers.length : ℕ) : ℤ),
      (gradeAnswers sub.answers).1, sub.answers.length, (gradeAnswers sub.answers).2⟩,
    ?_, ?_, by show store.length ≠ store.length + 1; omega, rfl, rfl, rfl, rfl, rfl, rfl, rfl,
    ?_, ?_, ?_⟩
  · simp only [submitQuizToStore, h1]
  · have hlen : (store ++ [(⟨store.length, u, sub.topic, sub.difficulty, sub.questionType, k1,
        (gradeAnswers sub.answers).1,
        ((roundHalfUp (100 * (gradeAnswers sub.answers).1) sub.answers.length : ℕ) : ℤ),
        (gradeAnswers sub.answers).2, k2, now1⟩ : QuizResultRecord)]).length
        = store.length + 1 := by simp
    simp only [submitQuizToStore, hlen, h2]
  · intro s2 u2
    refine ⟨?_, ?_, ?_⟩
    · intro r hr
      have hr2 : r ∈ List.insertionSort newerEq (s2.filter fun x => x.user == u2) :=
        List.take_subset _ _ hr
      rw [List.mem_insertionSort] at hr2
      have hb := List.of_mem_filter hr2
      simpa using hb
    · have hs := List.sorted_insertionSort newerEq (s2.filter fun x => x.user == u2)
      exact List.Pairwise.sublist (List.take_sublist _ _) hs
    · rw [quizHistory, List.length_take]
      exact Nat.min_le_left _ _
  · rw [quizHistory]
    apply mem_take_of_countP_le _ 10 (pairwise_insertionSort_newerEq _)
    · rw [List.mem_insertionSort, List.filter_append, List.filter_append]
      refine List.mem_append.mpr (Or.inl (List.mem_append.mpr (Or.inr ?_)))
      simp
    · rw [(List.perm_insertionSort newerEq _).countP_eq, List.filter_append,
        List.filter_append, List.countP_append, List.countP_append]
      have hz : (List.filter (fun x => x.user == u) store).countP
          (fun y => decide (now1 ≤ y.completedAt)) = 0 := by
        rw [List.countP_eq_zero]
        intro a ha
        have hlt := hold a (List.mem_of_mem_filter ha)
        simp only [decide_eq_true_eq]
        omega
      simp [hz, List.countP_cons, Nat.le_of_lt h12]
  · rw [quizHistory]
    apply mem_take_of_countP_le _ 10 (pairwise_insertionSort_newerEq _)
    · rw [List.mem_insertionSort, List.filter_append, List.filter_append]
      refine List.mem_append.mpr (Or.inr ?_)
      simp
    · rw [(List.perm_insertionSort newerEq _).countP_eq, List.filter_append,
        List.filter_append, List.countP_append, List.countP_append]
      have hz : (List.filter (fun x => x.user == u) store).countP
          (fun y => decide (now2 ≤ y.completedAt)) = 0 := by
        rw [List.countP_eq_zero]
        intro a ha
        have hlt := hold a (List.mem_of_mem_filter ha)
        simp only [decide_eq_true_eq]
        omega
      simp [hz, List.countP_cons, Nat.not_le.mpr h12]

/-- Witness for C9: two identical submissions on an empty store create two
records with distinct ids and both appear in the history listing. -/
theorem quiz_history_append_only_wit :
    ∃ rec1 resp1 rec2 resp2,
      submitQuizToStore [] 0 demoSubmission 10 = ([rec1], .ok rec1 resp1)
      ∧ submitQuizToStore [rec1] 0 demoSubmission 20 = ([rec1, rec2], .ok rec2 resp2)
      ∧ rec1.id ≠ rec2.id
      ∧ rec1 ∈ quizHistory [rec1, rec2] 0
      ∧ rec2 ∈ quizHistory [rec1, rec2] 0 := by
  obtain ⟨r1, p1, r2, p2, hs1, hs2, hid, _, _, _, _, _, _, _, _, hm1, hm2⟩ :=
    quiz_history_append_only [] 0 demoSubmission 10 20 (by decide)
      ⟨3, by decide⟩ ⟨42, by decide⟩
      (fun r hr => absurd hr (List.not_mem_nil r)) (by omega)
  refine ⟨r1, p1, r2, p2, ?_, ?_, hid, ?_, ?_⟩
  · simpa using hs1
  · simpa using hs2
  · simpa using hm1
  · simpa using hm2
